import Mathlib

/-!
Shallow embedding of the shopping-assistant frontend state stores and the
chat send handler, translated from:
  src/frontend/store/chatStore.ts
  src/frontend/store/authStore.ts   (auth store and cart store)
  src/frontend/store/lookbookStore.ts
  src/frontend/components/ChatInterface.tsx

JavaScript numbers are modelled as `Int`; optional (possibly-undefined)
fields as `Option`; the JS `x || 0` default on a possibly-missing number is
modelled by `jsOr`.  Fallible network calls are passed in as explicit
`Except`-valued functions, so a handler body becomes a pure function of the
call's outcome.
-/

namespace ShoppingAssistant

/-- JS `x || d` on a possibly-missing number: `undefined` and `0` are falsy,
so both fall back to the default `d`. -/
def jsOr (x : Option Int) (d : Int) : Int :=
  match x with
  | none => d
  | some v => if v = 0 then d else v

/-- Structured payload carried on an assistant reply (`response.data.data` in
ChatInterface.tsx).  `clear_cart` models the JS truthiness of the optional
`clear_cart` field (absent or falsy ↦ `false`); `products` is the optional
product-list payload, kept abstract as a list of product ids. -/
structure AgentData where
  clear_cart : Bool
  products : Option (List Int)
deriving DecidableEq, Repr

/-- `Message` from chatStore.ts: role is `"user"` or `"assistant"`. -/
structure Message where
  role : String
  content : String
  agent : Option String
  data : Option AgentData
deriving DecidableEq, Repr

/-- The chat store state: the persisted `messages` list. -/
structure ChatState where
  messages : List Message
deriving DecidableEq, Repr

/-- The greeting the chat store is initialised with (chatStore.ts lines 21-27). -/
def initialGreeting : Message :=
  { role := "assistant"
  , content := "Hi! I'm your AI shopping assistant. How can I help you today?"
  , agent := some "orchestrator"
  , data := none }

/-- Initial chat store state: just the greeting. -/
def initialChatState : ChatState := ⟨[initialGreeting]⟩

/-- `addMessage` (chatStore.ts line 28): append the message to the list. -/
def addMessage (m : Message) (s : ChatState) : ChatState :=
  ⟨s.messages ++ [m]⟩

/-- `setMessages` (chatStore.ts line 29): replace the whole list. -/
def setMessages (ms : List Message) (_s : ChatState) : ChatState :=
  ⟨ms⟩

/-- `clearMessages` (chatStore.ts lines 30-36): reset to the initial greeting. -/
def clearMessages (_s : ChatState) : ChatState :=
  ⟨[initialGreeting]⟩

/-- `CartItem` from the cart store (authStore.ts bundle).  The TypeScript
interface declares `price: number`, but the store defends against a missing
value with `item.price || 0` at checkout, so price is modelled as a
possibly-missing number. -/
structure CartItem where
  product_id : Int
  product_name : String
  price : Option Int
  quantity : Int
  image_url : Option String
  brand_name : String
deriving DecidableEq, Repr

/-- The product object handed to `addToCart` / `addToLookbook` (the catalog
row shape used by the UI: `price_from` is optional). -/
structure Product where
  product_id : Int
  product_name : String
  price_from : Option Int
  brand_name : String
deriving DecidableEq, Repr

/-- The fresh cart line `addToCart` appends for a not-yet-carted product
(cart store lines 73-79): quantity 1, `price := product.price_from || 0`,
no image. -/
def newCartItem (product : Product) : CartItem :=
  { product_id := product.product_id
  , product_name := product.product_name
  , price := some (jsOr product.price_from 0)
  , quantity := 1
  , image_url := none
  , brand_name := product.brand_name }

/-- `addToCart` (cart store lines 61-81): if an item with the same
`product_id` exists, bump every matching item's quantity via `map`;
otherwise append the fresh line. -/
def addToCart (product : Product) (items : List CartItem) : List CartItem :=
  if items.any (fun item => item.product_id = product.product_id) then
    items.map (fun item =>
      if item.product_id = product.product_id
      then { item with quantity := item.quantity + 1 }
      else item)
  else
    items ++ [newCartItem product]

/-- `removeFromCart` (cart store lines 82-84). -/
def removeFromCart (productId : Int) (items : List CartItem) : List CartItem :=
  items.filter (fun item => item.product_id ≠ productId)

/-- `updateQuantity` (cart store lines 85-89). -/
def updateQuantity (productId : Int) (quantity : Int) (items : List CartItem) :
    List CartItem :=
  items.map (fun item =>
    if item.product_id = productId then { item with quantity := quantity } else item)

/-- `clearCart` (cart store line 90). -/
def clearCart (_items : List CartItem) : List CartItem := []

/-- A line item of the order payload built by `checkout` (cart store
lines 98-102): SKU id is mocked as the product id. -/
structure LineItem where
  sku_id : Int
  quantity : Int
  unit_price : Int
deriving DecidableEq, Repr

/-- The mapping from cart items to order line items inside `checkout`:
`sku_id := item.product_id`, `quantity := item.quantity`,
`unit_price := item.price || 0`. -/
def mkLineItems (items : List CartItem) : List LineItem :=
  items.map (fun item =>
    { sku_id := item.product_id
    , quantity := item.quantity
    , unit_price := jsOr item.price 0 })

/-- The order payload `checkout` posts (cart store lines 104-109). -/
structure OrderPayload where
  customer_id : Int
  line_items : List LineItem
  payment_method : String
  shipping_line1 : String
  shipping_city : String
  shipping_state : String
deriving DecidableEq, Repr

/-- Build the checkout payload for a given customer and cart. -/
def mkOrderPayload (customerId : Int) (items : List CartItem) : OrderPayload :=
  { customer_id := customerId
  , line_items := mkLineItems items
  , payment_method := "Credit Card"
  , shipping_line1 := "123 Main St"
  , shipping_city := "New York"
  , shipping_state := "NY" }

/-- `checkout` (cart store lines 93-117), with the `axios.post` call passed in
as an explicit `Except`-valued function (error = rejected promise, modelled
as a `String` message; `σ` is the opaque order-response body).  Returns the
thrown/returned outcome together with the cart contents after the call:
an empty cart throws `"Cart is empty"` before posting; a failed post
propagates the error and the cart is only emptied after a successful post. -/
def checkout {σ : Type} (customerId : Int)
    (post : OrderPayload → Except String σ) (items : List CartItem) :
    Except String σ × List CartItem :=
  if items.length = 0 then (Except.error "Cart is empty", items)
  else
    match post (mkOrderPayload customerId items) with
    | Except.error e => (Except.error e, items)
    | Except.ok r => (Except.ok r, [])

/-- `LookbookItem` from lookbookStore.ts.  `addToLookbook` appends the raw
product object, so the stored shape is the product shape. -/
abbrev LookbookItem := Product

/-- `addToLookbook` (lookbookStore.ts lines 23-28): no-op when an item with
the same `product_id` is already present, otherwise append the product. -/
def addToLookbook (product : LookbookItem) (items : List LookbookItem) :
    List LookbookItem :=
  if items.any (fun i => i.product_id = product.product_id) then
    items
  else
    items ++ [product]

/-- `removeFromLookbook` (lookbookStore.ts lines 29-31). -/
def removeFromLookbook (productId : Int) (items : List LookbookItem) :
    List LookbookItem :=
  items.filter (fun i => i.product_id ≠ productId)

/-- `isInLookbook` (lookbookStore.ts line 32). -/
def isInLookbook (productId : Int) (items : List LookbookItem) : Bool :=
  items.any (fun i => i.product_id = productId)

/-- `User` from authStore.ts. -/
structure User where
  customer_id : Int
  email : String
  first_name : Option String
  last_name : Option String
deriving DecidableEq, Repr

/-- The request `context` object (ChatInterface.tsx lines 56-59). -/
structure ChatContext where
  cart_items : List CartItem
  page_context : String
deriving DecidableEq, Repr

/-- The request body posted to `/api/agent/chat` (ChatInterface.tsx
lines 53-60). -/
structure ChatRequest where
  message : String
  customer_id : Option Int
  context : ChatContext
deriving DecidableEq, Repr

/-- The reply body consumed from `/api/agent/chat`
(`response.data` in ChatInterface.tsx lines 62-67). -/
structure ChatResponse where
  response : String
  agent_name : String
  data : Option AgentData
deriving DecidableEq, Repr

/-- Build the chat request exactly as `handleSend` does: the raw `input`
text, the logged-in user's id (absent for guests), and the cart items plus
current pathname as context. -/
def buildChatRequest (input : String) (user : Option User)
    (items : List CartItem) (pathname : String) : ChatRequest :=
  { message := input
  , customer_id := user.map (fun u => u.customer_id)
  , context := { cart_items := items, page_context := pathname } }

/-- The user message `handleSend` appends before the request
(ChatInterface.tsx lines 43-48). -/
def userMessage (input : String) : Message :=
  { role := "user", content := input, agent := none, data := none }

/-- The assistant message built from a successful reply (ChatInterface.tsx
lines 62-67). -/
def assistantMessage (r : ChatResponse) : Message :=
  { role := "assistant", content := r.response
  , agent := some r.agent_name, data := r.data }

/-- The canned degraded message appended in the catch branch
(ChatInterface.tsx lines 82-86). -/
def cannedErrorMessage : Message :=
  { role := "assistant"
  , content := "Sorry, I encountered an error. Please try again."
  , agent := some "error"
  , data := none }

/-- JS `!input.trim()` (ChatInterface.tsx line 41): the guard fires exactly
when the input is blank, i.e. every character is whitespace.  (`String.trim`
itself is modelled by this equivalent character-level check because the JS
trim removes exactly the leading/trailing whitespace, so the trimmed string
is empty iff all characters are whitespace.) -/
def isBlankInput (s : String) : Bool :=
  s.data.all Char.isWhitespace

/-- JS truthiness of `response.data.data?.clear_cart`. -/
def clearCartDirective (d : Option AgentData) : Bool :=
  match d with
  | none => false
  | some a => a.clear_cart

/-- The chat-turn state `handleSend` reads and writes: the chat store's
message list and the cart store's items. -/
structure ChatTurnState where
  messages : List Message
  cartItems : List CartItem
deriving DecidableEq, Repr

/-- `handleSend` (ChatInterface.tsx lines 40-90), with the awaited
`axios.post` passed in as an explicit `Except`-valued function `send`
(error = rejected promise, the JS error value modelled as a `String`).
Guard: blank (whitespace-only) input or an in-flight request is a no-op.
Otherwise the user message is appended first, then on success the assistant
message is appended and the cart is cleared exactly when the structured
`clear_cart` directive is truthy; on failure the canned degraded message is
appended and the cart is untouched. -/
def handleSend (input : String) (isLoading : Bool) (user : Option User)
    (pathname : String) (send : ChatRequest → Except String ChatResponse)
    (s : ChatTurnState) : ChatTurnState :=
  if isBlankInput input || isLoading then s
  else
    let afterUser : ChatTurnState :=
      { s with messages := s.messages ++ [userMessage input] }
    match send (buildChatRequest input user s.cartItems pathname) with
    | Except.ok resp =>
        let afterAssistant : ChatTurnState :=
          { afterUser with
              messages := afterUser.messages ++ [assistantMessage resp] }
        if clearCartDirective resp.data then
          { afterAssistant with cartItems := clearCart afterAssistant.cartItems }
        else
          afterAssistant
    | Except.error _ =>
        { afterUser with messages := afterUser.messages ++ [cannedErrorMessage] }

/-! ## Theorems -/

/-- Length of the message list after `n` calls of `addMessage` with the same
message: it grows by exactly one per call. -/
lemma addMessage_iterate_length (m : Message) (s : ChatState) (n : ℕ) :
    ((addMessage m)^[n] s).messages.length = s.messages.length + n := by
  induction n with
  | zero => simp
  | succ k ih =>
      rw [Function.iterate_succ_apply']
      simp [addMessage, ih]
      omega

/-- C1 fails on the code: the chat store's `addMessage` never trims, so no
bound `W` caps the length of the message list across repeated calls — after
`W + 1` calls starting from the initial state the list already has `W + 2`
messages. -/
theorem addMessage_window_bound_counterexample :
    ¬ ∃ W : ℕ, ∀ n : ℕ,
        ((addMessage initialGreeting)^[n] initialChatState).messages.length ≤ W := by
  rintro ⟨W, hW⟩
  have h := hW (W + 1)
  rw [addMessage_iterate_length] at h
  simp [initialChatState] at h
  omega

/-- C1 amended: `addMessage` appends the new message at the end, preserving
all prior messages; each call grows the list by exactly one, and the list
length eventually exceeds any fixed window bound — the store performs no
window trimming. -/
theorem addMessage_appends_without_bound (m : Message) (s : ChatState) :
    (addMessage m s).messages = s.messages ++ [m] ∧
    (addMessage m s).messages.length = s.messages.length + 1 ∧
    ∀ W : ℕ, ∃ n : ℕ, W < ((addMessage m)^[n] s).messages.length := by
  refine ⟨rfl, by simp [addMessage], fun W => ⟨W + 1, ?_⟩⟩
  rw [addMessage_iterate_length]
  omega

/-- C6 fails on the code: the chat store is not append-only, because
`clearMessages` resets the list to the initial greeting — a message stored
by `addMessage` is present before the call and gone after it. -/
theorem chat_store_append_only_counterexample :
    userMessage "hello" ∈ (addMessage (userMessage "hello") initialChatState).messages ∧
    userMessage "hello" ∉
      (clearMessages (addMessage (userMessage "hello") initialChatState)).messages := by
  constructor
  · simp [addMessage]
  · simp [clearMessages]
    decide

/-- C6 amended: `addMessage` alone is append-only — it leaves every
previously stored message present, unchanged and in order (the old list is
exactly the prefix of the new one) and only adds the new message at the
end; but the store also exposes `setMessages` (wholesale replacement) and
`clearMessages` (reset to the initial greeting), which do remove stored
messages. -/
theorem addMessage_append_only (m : Message) (s : ChatState) :
    (addMessage m s).messages = s.messages ++ [m] ∧
    (addMessage m s).messages.take s.messages.length = s.messages ∧
    (addMessage m s).messages.drop s.messages.length = [m] := by
  refine ⟨rfl, ?_, ?_⟩ <;> simp [addMessage]

/-- Concrete catalog row used to instantiate the theorems below. -/
def sampleProduct : Product :=
  { product_id := 7, product_name := "Linen Shirt"
  , price_from := some 120, brand_name := "Acme" }

/-- Concrete cart line used to instantiate the theorems below. -/
def sampleItem : CartItem := newCartItem sampleProduct

/-- Concrete logged-in user used to instantiate the theorems below. -/
def sampleUser : User :=
  { customer_id := 3, email := "a@b.c"
  , first_name := none, last_name := none }

/-- Concrete successful agent reply carrying a truthy `clear_cart`
directive, used to instantiate the theorems below. -/
def sampleClearResponse : ChatResponse :=
  { response := "Your cart has been cleared."
  , agent_name := "checkout"
  , data := some { clear_cart := true, products := none } }

/-- C2: when the backend call rejects, `handleSend` appends the customer's
message before the request and then exactly one assistant message with the
canned degraded text; every prior message is retained. -/
theorem handleSend_failure_degrades (input : String) (user : Option User)
    (pathname : String) (send : ChatRequest → Except String ChatResponse)
    (s : ChatTurnState) (e : String)
    (hin : isBlankInput input = false)
    (hfail : send (buildChatRequest input user s.cartItems pathname)
      = Except.error e) :
    (handleSend input false user pathname send s).messages
      = s.messages ++ [userMessage input, cannedErrorMessage] ∧
    cannedErrorMessage.role = "assistant" ∧
    cannedErrorMessage.content = "Sorry, I encountered an error. Please try again." := by
  refine ⟨?_, rfl, rfl⟩
  simp [handleSend, hin, hfail]

/-- Witness for C2 at a concrete failing exchange. -/
theorem handleSend_failure_degrades_witness :
    (handleSend "hi" false none "/"
        (fun _ => Except.error "network down")
        { messages := [initialGreeting], cartItems := [] }).messages
      = [initialGreeting] ++ [userMessage "hi", cannedErrorMessage] :=
  (handleSend_failure_degrades "hi" none "/"
    (fun _ => Except.error "network down")
    { messages := [initialGreeting], cartItems := [] }
    "network down" (by decide) rfl).1

/-- C3: on a successful exchange the cart is cleared exactly when the
reply's structured `clear_cart` directive is truthy (unchanged otherwise,
in particular when the structured payload is absent), and the cart outcome
depends only on the structured payload — two successful replies with the
same `data` but different free text leave the cart in the same state. -/
theorem handleSend_clear_cart_iff (input : String) (user : Option User)
    (pathname : String) (send : ChatRequest → Except String ChatResponse)
    (s : ChatTurnState) (resp : ChatResponse)
    (hin : isBlankInput input = false)
    (hok : send (buildChatRequest input user s.cartItems pathname)
      = Except.ok resp) :
    ((handleSend input false user pathname send s).cartItems
      = if clearCartDirective resp.data then [] else s.cartItems) ∧
    (resp.data = none →
      (handleSend input false user pathname send s).cartItems = s.cartItems) ∧
    ∀ (resp' : ChatResponse) (send' : ChatRequest → Except String ChatResponse),
      resp'.data = resp.data →
      send' (buildChatRequest input user s.cartItems pathname) = Except.ok resp' →
      (handleSend input false user pathname send' s).cartItems
        = (handleSend input false user pathname send s).cartItems := by
  refine ⟨?_, fun hnone => ?_, fun resp' send' hdata hok' => ?_⟩
  · by_cases h : clearCartDirective resp.data <;>
      simp [handleSend, hin, hok, clearCart, h]
  · simp [handleSend, hin, hok, clearCartDirective, hnone]
  · by_cases h : clearCartDirective resp.data <;>
      simp [handleSend, hin, hok, hok', clearCart, hdata, h]

/-- Witness for C3 at a concrete successful exchange whose reply carries a
truthy `clear_cart` directive. -/
theorem handleSend_clear_cart_iff_witness :
    (handleSend "hi" false none "/"
        (fun _ => Except.ok sampleClearResponse)
        { messages := [initialGreeting], cartItems := [sampleItem] }).cartItems
      = [] := by
  have h := (handleSend_clear_cart_iff "hi" none "/"
    (fun _ => Except.ok sampleClearResponse)
    { messages := [initialGreeting], cartItems := [sampleItem] }
    sampleClearResponse (by decide) rfl).1
  simpa [sampleClearResponse, clearCartDirective] using h

/-- C4: the request `handleSend` posts carries exactly the message text, the
optional customer id and a context of cart items plus page context, and the
assistant message appended on success carries exactly the reply's text,
agent name and structured data. -/
theorem chat_boundary_shape (input : String) (user : Option User)
    (pathname : String) (send : ChatRequest → Except String ChatResponse)
    (s : ChatTurnState) (resp : ChatResponse)
    (hin : isBlankInput input = false)
    (hok : send (buildChatRequest input user s.cartItems pathname)
      = Except.ok resp) :
    (buildChatRequest input user s.cartItems pathname).message = input ∧
    (buildChatRequest input user s.cartItems pathname).customer_id
      = user.map (fun u => u.customer_id) ∧
    (buildChatRequest input user s.cartItems pathname).context.cart_items
      = s.cartItems ∧
    (buildChatRequest input user s.cartItems pathname).context.page_context
      = pathname ∧
    (handleSend input false user pathname send s).messages
      = s.messages ++ [userMessage input, assistantMessage resp] ∧
    (assistantMessage resp).content = resp.response ∧
    (assistantMessage resp).agent = some resp.agent_name ∧
    (assistantMessage resp).data = resp.data := by
  refine ⟨rfl, rfl, rfl, rfl, ?_, rfl, rfl, rfl⟩
  by_cases h : clearCartDirective resp.data <;>
    simp [handleSend, hin, hok, h]

/-- Witness for C4 at a concrete successful exchange. -/
theorem chat_boundary_shape_witness :
    (buildChatRequest "hi" (some sampleUser)
        [sampleItem] "/").message = "hi" ∧
    (buildChatRequest "hi" (some sampleUser)
        [sampleItem] "/").customer_id
      = Option.map (fun u => u.customer_id)
          (some sampleUser) ∧
    (buildChatRequest "hi" (some sampleUser)
        [sampleItem] "/").context.cart_items = [sampleItem] ∧
    (buildChatRequest "hi" (some sampleUser)
        [sampleItem] "/").context.page_context = "/" ∧
    (handleSend "hi" false (some sampleUser) "/"
        (fun _ => Except.ok sampleClearResponse)
        { messages := [initialGreeting], cartItems := [sampleItem] }).messages
      = [initialGreeting] ++ [userMessage "hi", assistantMessage sampleClearResponse] ∧
    (assistantMessage sampleClearResponse).content = sampleClearResponse.response ∧
    (assistantMessage sampleClearResponse).agent
      = some sampleClearResponse.agent_name ∧
    (assistantMessage sampleClearResponse).data = sampleClearResponse.data :=
  chat_boundary_shape "hi"
    (some sampleUser)
    "/" (fun _ => Except.ok sampleClearResponse)
    { messages := [initialGreeting], cartItems := [sampleItem] }
    sampleClearResponse (by decide) rfl

/-- C7: the degraded branch is error-oblivious — any two failing backend
calls, whatever their error values, leave `handleSend` in identical states,
and the appended assistant text is the fixed canned string, which carries no
information from the error value. -/
theorem error_text_uniform (input : String) (isLoading : Bool)
    (user : Option User) (pathname : String) (s : ChatTurnState)
    (send1 send2 : ChatRequest → Except String ChatResponse) (e1 e2 : String)
    (h1 : send1 (buildChatRequest input user s.cartItems pathname)
      = Except.error e1)
    (h2 : send2 (buildChatRequest input user s.cartItems pathname)
      = Except.error e2) :
    handleSend input isLoading user pathname send1 s
      = handleSend input isLoading user pathname send2 s ∧
    (isBlankInput input = false → isLoading = false →
      (handleSend input isLoading user pathname send1 s).messages
        = s.messages ++ [userMessage input, cannedErrorMessage]) ∧
    cannedErrorMessage.content = "Sorry, I encountered an error. Please try again." := by
  refine ⟨?_, fun hin hload => ?_, rfl⟩
  · by_cases hb : isBlankInput input
    · simp [handleSend, hb]
    · by_cases hl : isLoading <;>
        simp [handleSend, hb, hl, h1, h2]
  · subst hload
    simp [handleSend, hin, h1]

/-- Witness for C7: two concrete failures with different error values give
identical resulting states. -/
theorem error_text_uniform_witness :
    handleSend "hi" false none "/"
        (fun _ => Except.error "ECONNREFUSED at axios.post line 53")
        { messages := [initialGreeting], cartItems := [sampleItem] }
      = handleSend "hi" false none "/"
        (fun _ => Except.error "timeout of 0ms exceeded")
        { messages := [initialGreeting], cartItems := [sampleItem] } :=
  (error_text_uniform "hi" false none "/"
    { messages := [initialGreeting], cartItems := [sampleItem] }
    (fun _ => Except.error "ECONNREFUSED at axios.post line 53")
    (fun _ => Except.error "timeout of 0ms exceeded")
    "ECONNREFUSED at axios.post line 53" "timeout of 0ms exceeded"
    rfl rfl).1

/-- C5: for a non-empty cart, `checkout` submits exactly the payload built
from the placeholder identity mapping — the outcome of the posting call on
that payload is the outcome of `checkout` — and each line item of that
payload takes its `sku_id` from the cart line's `product_id`, its
`quantity` from the cart line's `quantity`, and its `unit_price` from the
cart line's `price`, defaulting to 0 when the price is missing. -/
theorem checkout_line_item_mapping (customerId : Int) (items : List CartItem)
    (hne : items ≠ []) :
    (∀ (σ : Type) (post : OrderPayload → Except String σ),
        (checkout customerId post items).1
          = post (mkOrderPayload customerId items)) ∧
    (mkOrderPayload customerId items).line_items
      = items.map (fun item =>
          { sku_id := item.product_id
          , quantity := item.quantity
          , unit_price := item.price.getD 0 }) := by
  constructor
  · intro σ post
    have hlen : ¬ items.length = 0 := by
      simpa [List.length_eq_zero] using hne
    simp only [checkout, hlen, if_false]
    cases post (mkOrderPayload customerId items) <;> simp
  · simp only [mkOrderPayload, mkLineItems]
    apply List.map_congr_left
    intro x _
    cases hp : x.price with
    | none => simp [jsOr]
    | some v =>
        by_cases hv : v = 0 <;> simp [jsOr, hv]

/-- Witness for C5 on a concrete one-line cart. -/
theorem checkout_line_item_mapping_witness :
    (mkOrderPayload 3 [sampleItem]).line_items
      = [sampleItem].map (fun item =>
          { sku_id := item.product_id
          , quantity := item.quantity
          , unit_price := item.price.getD 0 }) :=
  (checkout_line_item_mapping 3 [sampleItem] (by simp)).2

/-- C8: `checkout` is atomic with respect to the cart — an empty cart
throws `"Cart is empty"` with the cart untouched, a failed order-creation
post propagates its error with the cart untouched, and only a successful
post empties the cart. -/
theorem checkout_atomicity (σ : Type) (customerId : Int)
    (post : OrderPayload → Except String σ) (items : List CartItem) :
    (items = [] →
      checkout customerId post items = (Except.error "Cart is empty", items)) ∧
    (∀ e : String, items ≠ [] →
      post (mkOrderPayload customerId items) = Except.error e →
      checkout customerId post items = (Except.error e, items)) ∧
    (∀ r : σ, items ≠ [] →
      post (mkOrderPayload customerId items) = Except.ok r →
      checkout customerId post items = (Except.ok r, [])) := by
  refine ⟨fun h => ?_, fun e hne hp => ?_, fun r hne hp => ?_⟩
  · subst h
    simp [checkout]
  · have hlen : ¬ items.length = 0 := by
      simpa [List.length_eq_zero] using hne
    simp [checkout, hlen, hp]
  · have hlen : ¬ items.length = 0 := by
      simpa [List.length_eq_zero] using hne
    simp [checkout, hlen, hp]

/-- Witness for C8: a concrete failing post leaves the concrete cart
unchanged and propagates the error. -/
theorem checkout_atomicity_witness :
    checkout 3 (fun _ => (Except.error "order service down" : Except String String))
        [sampleItem]
      = (Except.error "order service down", [sampleItem]) :=
  (checkout_atomicity String 3
    (fun _ => Except.error "order service down") [sampleItem]).2.1
    "order service down" (by simp) rfl

/-- Under pairwise-distinct product ids, the quantity-bump `map` inside
`addToCart` touches exactly the matching position: it equals a
single-position `set` at the index holding the matching id. -/
lemma map_bump_eq_set (g : CartItem → CartItem) (pid : Int) :
    ∀ (l : List CartItem), (l.map CartItem.product_id).Nodup →
      ∀ (i : Fin l.length), (l.get i).product_id = pid →
        l.map (fun x => if x.product_id = pid then g x else x)
          = l.set i.1 (g (l.get i)) := by
  intro l
  induction l with
  | nil =>
      intro _ i _
      exact absurd i.2 (by simp)
  | cons a t ih =>
      intro hnd i hi
      have hnd' : a.product_id ∉ t.map CartItem.product_id ∧
          (t.map CartItem.product_id).Nodup := by
        rw [List.map_cons] at hnd
        exact List.nodup_cons.mp hnd
      rcases i with ⟨iv, hlt⟩
      cases iv with
      | zero =>
          have ha : a.product_id = pid := hi
          have ht : t.map (fun x => if x.product_id = pid then g x else x) = t := by
            conv_rhs => rw [← List.map_id t]
            apply List.map_congr_left
            intro x hx
            have hxp : x.product_id ≠ pid := by
              intro hcontra
              exact hnd'.1 (ha ▸ List.mem_map.mpr ⟨x, hx, hcontra⟩)
            simp [hxp]
          simp [ha, ht]
      | succ j =>
          have hjlt : j < t.length := Nat.lt_of_succ_lt_succ (by simpa using hlt)
          have hget : ((a :: t).get ⟨j + 1, hlt⟩) = t.get ⟨j, hjlt⟩ := rfl
          have hit : (t.get ⟨j, hjlt⟩).product_id = pid := by
            rw [← hget]
            exact hi
          have hmem : pid ∈ t.map CartItem.product_id :=
            List.mem_map.mpr ⟨t.get ⟨j, hjlt⟩, t.get_mem j hjlt, hit⟩
          have hane : a.product_id ≠ pid := fun h => hnd'.1 (h ▸ hmem)
          have htail := ih hnd'.2 ⟨j, hjlt⟩ hit
          calc (a :: t).map (fun x => if x.product_id = pid then g x else x)
              = (if a.product_id = pid then g a else a)
                  :: t.map (fun x => if x.product_id = pid then g x else x) := rfl
            _ = a :: t.set j (g (t.get ⟨j, hjlt⟩)) := by
                  rw [if_neg hane, htail]
            _ = (a :: t).set (j + 1) (g ((a :: t).get ⟨j + 1, hlt⟩)) := rfl

/-- C9: starting from a cart whose product ids are pairwise distinct,
`addToCart` keeps them pairwise distinct; when the product is already
carted it performs a single-position update bumping that line's quantity by
exactly one (all other lines untouched), and when it is new it appends
exactly one fresh line with quantity one. -/
theorem addToCart_unique_ids (p : Product) (items : List CartItem)
    (hnd : (items.map CartItem.product_id).Nodup) :
    ((addToCart p items).map CartItem.product_id).Nodup ∧
    (p.product_id ∈ items.map CartItem.product_id →
      ∃ i : Fin items.length,
        (items.get i).product_id = p.product_id ∧
        addToCart p items
          = items.set i.1
              { items.get i with quantity := (items.get i).quantity + 1 }) ∧
    (p.product_id ∉ items.map CartItem.product_id →
      addToCart p items = items ++ [newCartItem p]) := by
  have hany_iff : (items.any (fun item => item.product_id = p.product_id) = true)
      ↔ p.product_id ∈ items.map CartItem.product_id := by
    simp [List.any_eq_true, List.mem_map]
  by_cases hc : p.product_id ∈ items.map CartItem.product_id
  · have hany : items.any (fun item => item.product_id = p.product_id) = true :=
      hany_iff.mpr hc
    have heq : addToCart p items
        = items.map (fun item =>
            if item.product_id = p.product_id
            then { item with quantity := item.quantity + 1 }
            else item) := by
      unfold addToCart
      rw [if_pos hany]
    refine ⟨?_, fun _ => ?_, fun hn => absurd hc hn⟩
    · rw [heq, List.map_map]
      have hkey : (CartItem.product_id ∘ fun item =>
          if item.product_id = p.product_id
          then { item with quantity := item.quantity + 1 }
          else item) = CartItem.product_id := by
        funext x
        by_cases h : x.product_id = p.product_id <;> simp [h]
      rw [hkey]
      exact hnd
    · obtain ⟨x, hx, hxp⟩ := List.mem_map.mp hc
      obtain ⟨i, hi⟩ := List.mem_iff_get.mp hx
      have hip : (items.get i).product_id = p.product_id := by
        rw [hi]
        exact hxp
      have hset := map_bump_eq_set
        (fun y => { y with quantity := y.quantity + 1 })
        p.product_id items hnd i hip
      exact ⟨i, hip, by rw [heq, hset]⟩
  · have hany : items.any (fun item => item.product_id = p.product_id) = false := by
      rw [Bool.eq_false_iff]
      exact fun h => hc (hany_iff.mp h)
    have heq : addToCart p items = items ++ [newCartItem p] := by
      simp [addToCart, hany]
    refine ⟨?_, fun hmem => absurd hmem hc, fun _ => heq⟩
    rw [heq, List.map_append]
    simp [List.nodup_append, hnd, newCartItem, hc]

/-- Witness for C9 on a concrete one-line duplicate-free cart whose single
line already holds the added product's id. -/
theorem addToCart_unique_ids_witness :
    ((addToCart sampleProduct [sampleItem]).map CartItem.product_id).Nodup :=
  (addToCart_unique_ids sampleProduct [sampleItem] (by decide)).1

/-- C10: `addToLookbook` is idempotent on membership — adding an
already-present product id leaves the lookbook exactly unchanged, adding
the same product twice equals adding it once, the added product's id is in
the lookbook afterwards, and pairwise-distinct product ids are
preserved. -/
theorem addToLookbook_membership_idempotent (p : LookbookItem)
    (items : List LookbookItem) :
    (isInLookbook p.product_id items = true → addToLookbook p items = items) ∧
    addToLookbook p (addToLookbook p items) = addToLookbook p items ∧
    isInLookbook p.product_id (addToLookbook p items) = true ∧
    ((items.map Product.product_id).Nodup →
      ((addToLookbook p items).map Product.product_id).Nodup) := by
  by_cases h : items.any (fun i => i.product_id = p.product_id) = true
  · have heq : addToLookbook p items = items := by
      simp [addToLookbook, h]
    refine ⟨fun _ => heq, by rw [heq]; exact heq, ?_, fun hnd => by rw [heq]; exact hnd⟩
    rw [heq]
    simpa [isInLookbook] using h
  · have hfalse : items.any (fun i => i.product_id = p.product_id) = false := by
      rw [Bool.eq_false_iff]
      exact h
    have heq : addToLookbook p items = items ++ [p] := by
      simp [addToLookbook, hfalse]
    have hnotmem : p.product_id ∉ items.map Product.product_id := by
      intro hmem
      obtain ⟨x, hx, hxp⟩ := List.mem_map.mp hmem
      have : items.any (fun i => i.product_id = p.product_id) = true :=
        List.any_eq_true.mpr ⟨x, hx, by simp [hxp]⟩
      rw [hfalse] at this
      exact Bool.false_ne_true this
    refine ⟨fun hmem => ?_, ?_, ?_, fun hnd => ?_⟩
    · exact absurd (by simpa [isInLookbook] using hmem) h
    · have hguard : (items ++ [p]).any (fun i => i.product_id = p.product_id) = true := by
        simp
      rw [heq]
      simp [addToLookbook, hguard]
    · rw [heq]
      simp [isInLookbook]
    · rw [heq, List.map_append]
      simp [List.nodup_append, hnd, hnotmem]

/-- Witness for C10 on a concrete lookbook: double add equals single add,
the id is present afterwards, and distinctness is preserved. -/
theorem addToLookbook_membership_idempotent_witness :
    addToLookbook sampleProduct (addToLookbook sampleProduct [])
      = addToLookbook sampleProduct [] ∧
    isInLookbook sampleProduct.product_id (addToLookbook sampleProduct []) = true ∧
    ((addToLookbook sampleProduct []).map Product.product_id).Nodup :=
  ⟨(addToLookbook_membership_idempotent sampleProduct []).2.1,
   (addToLookbook_membership_idempotent sampleProduct []).2.2.1,
   (addToLookbook_membership_idempotent sampleProduct []).2.2.2 (by decide)⟩

end ShoppingAssistant
